import Mathlib

/-!
Shallow embedding of `jetpack/chart/utils.py`: cosmetic helpers for 2-D
chart axes (font sizing, tick removal, spine hiding, padding, tick
direction, color styling) over a matplotlib-like figure/axis model.

Numbers are modelled as rationals; matplotlib entities (figures, axes,
spines, tick labels) as explicit records.  Python in-place mutation
becomes state-passing on the `Axis` record; the module-level global
state of the plotting library (current figure/axis, figure creation)
becomes an explicit `Env` record.
-/

namespace Jetpack

/-- A tick label: its text and font size (matplotlib Text object). -/
structure Label where
  text : String
  size : ℚ
deriving DecidableEq

/-- One of the four spines of an axis: a color and an optional explicit
bound range, as in matplotlib `Spine` (`get_bounds` returns `None` when
no bounds were ever set). -/
structure Spine where
  color : String
  bounds : Option (ℚ × ℚ)
deriving DecidableEq

/-- The axis state read and mutated by the module: tick positions and
labels, display limits, the four spines, tick placement/direction/color
parameters and the axis labels. `fig` is the id of the owning figure
(`ax.get_figure()`). -/
@[ext]
structure Axis where
  fig : Nat
  xticks : List ℚ
  yticks : List ℚ
  xtickLabels : List Label
  ytickLabels : List Label
  xlim : ℚ × ℚ
  ylim : ℚ × ℚ
  spineLeft : Spine
  spineRight : Spine
  spineTop : Spine
  spineBottom : Spine
  xTickPos : String
  yTickPos : String
  xTickDir : String
  yTickDir : String
  xTickColor : String
  yTickColor : String
  xlabel : String
  ylabel : String
  xlabelColor : String
  ylabelColor : String
deriving DecidableEq

/-- Rendering of a numeric tick position as label text
(`set_xticklabels(ax.get_xticks())` stringifies the positions). -/
def numToStr (q : ℚ) : String := toString q

/-- Default font size of automatically generated tick labels. -/
def defaultLabelSize : ℚ := 10

/-- `ax.set_xticks(ts)`: replaces tick positions, regenerating labels. -/
def set_xticks (ax : Axis) (ts : List ℚ) : Axis :=
  { ax with xticks := ts,
            xtickLabels := ts.map (fun v => ⟨numToStr v, defaultLabelSize⟩) }

/-- `ax.set_yticks(ts)`. -/
def set_yticks (ax : Axis) (ts : List ℚ) : Axis :=
  { ax with yticks := ts,
            ytickLabels := ts.map (fun v => ⟨numToStr v, defaultLabelSize⟩) }

/-- `ax.set_xticklabels(labs, fontsize=size)`. -/
def set_xticklabels (ax : Axis) (labs : List String) (size : ℚ) : Axis :=
  { ax with xtickLabels := labs.map (fun s => ⟨s, size⟩) }

/-- `ax.set_yticklabels(labs, fontsize=size)`. -/
def set_yticklabels (ax : Axis) (labs : List String) (size : ℚ) : Axis :=
  { ax with ytickLabels := labs.map (fun s => ⟨s, size⟩) }

/-- `ax.set_xlim(lo, hi)`. -/
def set_xlim (ax : Axis) (lo hi : ℚ) : Axis := { ax with xlim := (lo, hi) }

/-- `ax.set_ylim(lo, hi)`. -/
def set_ylim (ax : Axis) (lo hi : ℚ) : Axis := { ax with ylim := (lo, hi) }

/-- `ax.spines[key]`, for the four valid keys used by the module. -/
def getSpine (ax : Axis) (key : String) : Spine :=
  if key = "left" then ax.spineLeft
  else if key = "right" then ax.spineRight
  else if key = "top" then ax.spineTop
  else ax.spineBottom

/-- `setfontsize` body: rewrites both axes' tick labels from the current
tick positions at the requested font size
(`ax.set_xticklabels(ax.get_xticks(), fontsize=size)` and likewise y). -/
def setfontsize_core (size : ℚ) (ax : Axis) : Axis :=
  let ax1 := set_xticklabels ax (ax.xticks.map numToStr) size
  set_yticklabels ax1 (ax1.yticks.map numToStr) size

/-- `noticks` body: clears the tick marks of both axes. -/
def noticks_core (ax : Axis) : Axis :=
  set_yticks (set_xticks ax []) []

/-- `nospines` body: clears the color of each flagged-true spine, then
places ticks by the tie-break rule (both of top/bottom hidden removes
all x-ticks; only top hidden puts x-ticks at the bottom; only bottom
hidden puts them at the top; symmetrically for y with left/right). -/
def nospines_core (left bottom top right : Bool) (ax : Axis) : Axis :=
  let ax1 := if left then { ax with spineLeft := { ax.spineLeft with color := "none" } } else ax
  let ax2 := if right then { ax1 with spineRight := { ax1.spineRight with color := "none" } } else ax1
  let ax3 := if top then { ax2 with spineTop := { ax2.spineTop with color := "none" } } else ax2
  let ax4 := if bottom then { ax3 with spineBottom := { ax3.spineBottom with color := "none" } } else ax3
  let ax5 :=
    if top && bottom then set_xticks ax4 []
    else if top then { ax4 with xTickPos := "bottom" }
    else if bottom then { ax4 with xTickPos := "top" }
    else ax4
  if left && right then set_yticks ax5 []
  else if left then { ax5 with yTickPos := "right" }
  else if right then { ax5 with yTickPos := "left" }
  else ax5

/-- One step of the label scan in `get_bounds`: on a tick with non-empty
label text, record it as `lower` if `lower` is still unset, otherwise
overwrite `upper`. -/
def labeledScanStep (p : Option ℚ × Option ℚ) (tl : ℚ × Label) : Option ℚ × Option ℚ :=
  if tl.2.text ≠ "" then
    match p.1 with
    | none => (some tl.1, p.2)
    | some _ => (p.1, some tl.1)
  else p

/-- The scan `for tick, label in zip(ticks(), labels())` of `get_bounds`,
starting from `lower, upper = None, None`. -/
def scanPair (ts : List ℚ) (ls : List Label) : Option ℚ × Option ℚ :=
  (ts.zip ls).foldl labeledScanStep (none, none)

/-- `if lower is None or upper is None: return limits()` else
`return lower, upper`. -/
def finishBounds (limits : ℚ × ℚ) : Option ℚ × Option ℚ → ℚ × ℚ
  | (some lo, some hi) => (lo, hi)
  | _ => limits

/-- The per-selector accessors stored in `axis_map` inside `get_bounds`. -/
structure AxisFns where
  ticks : Axis → List ℚ
  ticklabels : Axis → List Label
  limits : Axis → ℚ × ℚ
  spineKey : String

/-- The `"x"` row of `axis_map`. -/
def xFns : AxisFns := ⟨Axis.xticks, Axis.xtickLabels, Axis.xlim, "bottom"⟩

/-- The `"y"` row of `axis_map`. -/
def yFns : AxisFns := ⟨Axis.yticks, Axis.ytickLabels, Axis.ylim, "left"⟩

/-- The `axis_map` dictionary of `get_bounds`; lookup at any key other
than `"x"` or `"y"` fails (Python raises `KeyError`). -/
def axis_map (s : String) : Option AxisFns :=
  if s = "x" then some xFns else if s = "y" then some yFns else none

/-- The body of `get_bounds` after the `axis_map` lookup succeeded: an
explicit spine bound range is returned directly (a two-element Python
tuple is always truthy, so `if spine.get_bounds():` tests exactly
non-`None`-ness); otherwise the label scan runs, falling back to the
display limits when fewer than two labeled ticks were seen. -/
def get_bounds1 (fns : AxisFns) (ax : Axis) : ℚ × ℚ :=
  match (getSpine ax fns.spineKey).bounds with
  | some b => b
  | none => finishBounds (fns.limits ax) (scanPair (fns.ticks ax) (fns.ticklabels ax))

/-- Errors surfaced from the underlying library / Python builtins. -/
inductive PyError where
  | keyError : String → PyError
deriving DecidableEq

/-- `get_bounds(axis, ax)` on a resolved axis: the `axis_map[axis]`
lookup may raise `KeyError`, which the module does not catch. -/
def get_boundsE (axis : String) (ax : Axis) : Except PyError (ℚ × ℚ) :=
  match axis_map axis with
  | some fns => Except.ok (get_bounds1 fns ax)
  | none => Except.error (PyError.keyError axis)

/-- `get_bounds('x', ax=ax)` as used inside `breathe`. -/
def getBoundsX (ax : Axis) : ℚ × ℚ := get_bounds1 xFns ax

/-- `get_bounds('y', ax=ax)` as used inside `breathe`. -/
def getBoundsY (ax : Axis) : ℚ × ℚ := get_bounds1 yFns ax

/-- `tickdir` body: sets tick direction on both axes. -/
def tickdir_core (direction : String) (ax : Axis) : Axis :=
  { ax with xTickDir := direction, yTickDir := direction }

/-- `setcolor` body: sets tick colors and axis-label colors on both
axes, re-applying the (unchanged) label strings with the new color. -/
def setcolor_core (color : String) (ax : Axis) : Axis :=
  { ax with xTickColor := color, yTickColor := color,
            xlabelColor := color, ylabelColor := color,
            xlabel := ax.xlabel, ylabel := ax.ylabel }

/-- `breathe` body: for x then y, compute bounds, pad the display limits
by `factor * range` on each side, pin the spine's drawn bound to the
unpadded bounds; then apply `nospines` (default flags) and `tickdir`. -/
def breathe_core (factor : ℚ) (direction : String) (ax : Axis) : Axis :=
  let xb := getBoundsX ax
  let xrng := xb.2 - xb.1
  let ax1 := set_xlim ax (xb.1 - factor * xrng) (xb.2 + factor * xrng)
  let ax2 := { ax1 with spineBottom := { ax1.spineBottom with bounds := some (xb.1, xb.2) } }
  let yb := getBoundsY ax2
  let yrng := yb.2 - yb.1
  let ax3 := set_ylim ax2 (yb.1 - factor * yrng) (yb.2 + factor * yrng)
  let ax4 := { ax3 with spineLeft := { ax3.spineLeft with bounds := some (yb.1, yb.2) } }
  tickdir_core direction (nospines_core false false true true ax4)

/-- The plotting library's ambient state: a counter issuing fresh figure
ids, and the currently-active figure (`plt.gcf()`) and axis
(`plt.gca()`). -/
structure Env where
  nextFig : Nat
  gcf : Nat
  gca : Axis

/-- A freshly created single-subplot axis on figure `figId`
(`fig.add_subplot(111)`): default matplotlib state. -/
def freshAxis (figId : Nat) : Axis :=
  { fig := figId, xticks := [], yticks := [], xtickLabels := [], ytickLabels := [],
    xlim := (0, 1), ylim := (0, 1),
    spineLeft := ⟨"black", none⟩, spineRight := ⟨"black", none⟩,
    spineTop := ⟨"black", none⟩, spineBottom := ⟨"black", none⟩,
    xTickPos := "default", yTickPos := "default",
    xTickDir := "out", yTickDir := "out",
    xTickColor := "black", yTickColor := "black",
    xlabel := "", ylabel := "", xlabelColor := "black", ylabelColor := "black" }

/-- `plt.figure()`: creates a fresh figure and makes it current. -/
def plt_figure (env : Env) : Env × Nat :=
  ({ env with nextFig := env.nextFig + 1, gcf := env.nextFig }, env.nextFig)

/-- `fig.add_subplot(111)`: creates a single-subplot axis on the given
figure and makes it current. -/
def add_subplot (env : Env) (figId : Nat) : Env × Axis :=
  ({ env with gca := freshAxis figId }, freshAxis figId)

/-- The kwargs resolution of the `plotwrapper` decorator: if `ax` is
absent, create a figure when `fig` is also absent, then a new subplot on
the (supplied or new) figure; if `ax` is present, derive `fig` from the
axis when absent. Returns the possibly updated library state and the
resolved `(fig, ax)`. -/
def plotResolve (env : Env) (axOpt : Option Axis) (figOpt : Option Nat) :
    Env × Nat × Axis :=
  match axOpt with
  | none =>
      match figOpt with
      | none =>
          let r1 := plt_figure env
          let r2 := add_subplot r1.1 r1.2
          (r2.1, r1.2, r2.2)
      | some f =>
          let r2 := add_subplot env f
          (r2.1, f, r2.2)
  | some a =>
      match figOpt with
      | none => (env, a.fig, a)
      | some f => (env, f, a)

/-- The kwargs resolution of the `axwrapper` decorator: like
`plotResolve` when `ax` is present; when `ax` is absent it binds to the
library's current figure/axis (the spec's model of `plt.gcf()` /
`plt.gca()`) and never creates new drawing surfaces. -/
def axResolve (env : Env) (axOpt : Option Axis) (figOpt : Option Nat) :
    Env × Nat × Axis :=
  match axOpt with
  | none =>
      match figOpt with
      | none => (env, env.gcf, env.gca)
      | some f => (env, f, env.gca)
  | some a =>
      match figOpt with
      | none => (env, a.fig, a)
      | some f => (env, f, a)

/-- A Python-level return value of the module's public operations:
either an axis handle or a numeric `(lower, upper)` pair. -/
inductive PyVal where
  | axisv : Axis → PyVal
  | pairv : ℚ × ℚ → PyVal
deriving DecidableEq

/-- The `plotwrapper` decorator: resolve kwargs, run the wrapped body on
the resolved axis, return `kwargs['ax']` (the mutated axis). The
resolved figure is placed in the kwargs but none of the bodies read it. -/
def plotwrapper (body : Axis → Axis) (env : Env) (axOpt : Option Axis)
    (figOpt : Option Nat) : Env × PyVal :=
  let r := plotResolve env axOpt figOpt
  (r.1, PyVal.axisv (body r.2.2))

/-- The `axwrapper` decorator, same shape over `axResolve`. -/
def axwrapper (body : Axis → Axis) (env : Env) (axOpt : Option Axis)
    (figOpt : Option Nat) : Env × PyVal :=
  let r := axResolve env axOpt figOpt
  (r.1, PyVal.axisv (body r.2.2))

/-- Public `setfontsize(size, ax?, fig?)`. -/
def setfontsize (size : ℚ) (env : Env) (axOpt : Option Axis) (figOpt : Option Nat) :
    Env × PyVal :=
  plotwrapper (setfontsize_core size) env axOpt figOpt

/-- Public `noticks(ax?, fig?)`. -/
def noticks (env : Env) (axOpt : Option Axis) (figOpt : Option Nat) : Env × PyVal :=
  axwrapper noticks_core env axOpt figOpt

/-- Public `nospines(left, bottom, top, right, ax?, fig?)`. -/
def nospines (left bottom top right : Bool) (env : Env) (axOpt : Option Axis)
    (figOpt : Option Nat) : Env × PyVal :=
  axwrapper (nospines_core left bottom top right) env axOpt figOpt

/-- Public `breathe(factor, direction, ax?, fig?)`. -/
def breathe (factor : ℚ) (direction : String) (env : Env) (axOpt : Option Axis)
    (figOpt : Option Nat) : Env × PyVal :=
  axwrapper (breathe_core factor direction) env axOpt figOpt

/-- Public `tickdir(direction, ax?, fig?)`. -/
def tickdir (direction : String) (env : Env) (axOpt : Option Axis)
    (figOpt : Option Nat) : Env × PyVal :=
  axwrapper (tickdir_core direction) env axOpt figOpt

/-- Public `setcolor(color, ax?, fig?)`. -/
def setcolor (color : String) (env : Env) (axOpt : Option Axis)
    (figOpt : Option Nat) : Env × PyVal :=
  axwrapper (setcolor_core color) env axOpt figOpt

/-- Public `get_bounds(axis, ax=None)`: not decorated; defaults the axis
to `plt.gca()` and returns a numeric pair (or lets the `KeyError`
propagate). -/
def get_bounds (env : Env) (axis : String) (axOpt : Option Axis) :
    Except PyError PyVal :=
  (get_boundsE axis (match axOpt with | none => env.gca | some a => a)).map PyVal.pairv

/-! ### Concrete states used by witnesses and counterexamples -/

/-- Shorthand for a tick label at the default size. -/
def labelOf (s : String) : Label := ⟨s, defaultLabelSize⟩

/-- An axis with ticks at 0, 2, 5, 8, 10 on both axes, labeled only at
positions 2 and 8, display limits (0, 10), and no explicit spine
bounds. -/
def axW : Axis :=
  { fig := 0,
    xticks := [0, 2, 5, 8, 10], yticks := [0, 2, 5, 8, 10],
    xtickLabels := [labelOf "", labelOf "2", labelOf "", labelOf "8", labelOf ""],
    ytickLabels := [labelOf "", labelOf "2", labelOf "", labelOf "8", labelOf ""],
    xlim := (0, 10), ylim := (0, 10),
    spineLeft := ⟨"black", none⟩, spineRight := ⟨"black", none⟩,
    spineTop := ⟨"black", none⟩, spineBottom := ⟨"black", none⟩,
    xTickPos := "default", yTickPos := "default",
    xTickDir := "out", yTickDir := "out",
    xTickColor := "black", yTickColor := "black",
    xlabel := "", ylabel := "", xlabelColor := "black", ylabelColor := "black" }

/-- `axW` with a single labeled x-tick (at position 2). -/
def axOne : Axis :=
  { axW with xtickLabels := [labelOf "", labelOf "2", labelOf "", labelOf "", labelOf ""] }

/-- `axW` with explicit bounds (0, 10) on the bottom and left spines. -/
def axB : Axis :=
  { axW with spineBottom := ⟨"black", some (0, 10)⟩,
             spineLeft := ⟨"black", some (0, 10)⟩ }

/-- A library state whose current axis is a fresh default axis. -/
def envW : Env := { nextFig := 1, gcf := 0, gca := freshAxis 0 }

/-! ### The ticks of an axis that carry a non-empty label -/

/-- The labeled sub-sequence of the zipped tick/label streams. -/
def labeledOf (ts : List ℚ) (ls : List Label) : List (ℚ × Label) :=
  (ts.zip ls).filter (fun tl => tl.2.text ≠ "")

/-- The x-ticks of `ax` carrying non-empty label text. -/
def labeledX (ax : Axis) : List (ℚ × Label) := labeledOf ax.xticks ax.xtickLabels

/-- The y-ticks of `ax` carrying non-empty label text. -/
def labeledY (ax : Axis) : List (ℚ × Label) := labeledOf ax.yticks ax.ytickLabels

/-! ### Characterisation of the label scan -/

/-- Python-style fallback on optionals: keep the first when set. -/
def optOr (a b : Option ℚ) : Option ℚ :=
  match a with
  | some x => some x
  | none => b

lemma optOr_none_left (b : Option ℚ) : optOr none b = b := rfl

lemma optOr_some_left (x : ℚ) (b : Option ℚ) : optOr (some x) b = some x := rfl

lemma optOr_none_right (a : Option ℚ) : optOr a none = a := by
  cases a <;> rfl

lemma getLast?_cons_optOr (a : ℚ × Label) (s : List (ℚ × Label)) (u : Option ℚ) :
    optOr (((a :: s).getLast?).map Prod.fst) u =
      optOr ((s.getLast?).map Prod.fst) (some a.1) := by
  cases s with
  | nil => rfl
  | cons b t =>
      rw [List.getLast?_cons_cons]
      cases hc : (b :: t).getLast? with
      | none => exact absurd (List.getLast?_eq_none_iff.mp hc) (List.cons_ne_nil b t)
      | some c => rfl

/-- Once `lower` is set, the scan keeps it and moves `upper` to the last
labeled tick still to come (if any). -/
lemma foldl_scan_some : ∀ (l : List (ℚ × Label)) (x : ℚ) (u : Option ℚ),
    l.foldl labeledScanStep (some x, u) =
      (some x, optOr ((l.filter (fun tl => tl.2.text ≠ "")).getLast?.map Prod.fst) u)
  | [], x, u => by simp [optOr]
  | a :: t, x, u => by
      by_cases h : a.2.text = ""
      · have hstep : labeledScanStep (some x, u) a = (some x, u) := by
          simp [labeledScanStep, h]
        rw [List.foldl_cons, hstep, foldl_scan_some t x u, List.filter_cons]
        simp [h]
      · have hstep : labeledScanStep (some x, u) a = (some x, some a.1) := by
          simp [labeledScanStep, h]
        rw [List.foldl_cons, hstep, foldl_scan_some t x (some a.1), List.filter_cons]
        simp only [h, ne_eq, not_false_eq_true, decide_True, if_true]
        rw [getLast?_cons_optOr]

/-- The scan of `get_bounds` computes the first labeled tick as `lower`
and the last labeled tick strictly after it as `upper`. -/
lemma foldl_scan_none : ∀ (l : List (ℚ × Label)),
    l.foldl labeledScanStep (none, none) =
      (((l.filter (fun tl => tl.2.text ≠ "")).head?).map Prod.fst,
       (((l.filter (fun tl => tl.2.text ≠ "")).tail).getLast?).map Prod.fst)
  | [] => by simp
  | a :: t => by
      by_cases h : a.2.text = ""
      · have hstep : labeledScanStep (none, none) a = (none, none) := by
          simp [labeledScanStep, h]
        rw [List.foldl_cons, hstep, foldl_scan_none t, List.filter_cons]
        simp [h]
      · have hstep : labeledScanStep (none, none) a = (some a.1, none) := by
          simp [labeledScanStep, h]
        rw [List.foldl_cons, hstep, foldl_scan_some t a.1 none, List.filter_cons]
        simp [h, optOr_none_right]

lemma scanPair_eq (ts : List ℚ) (ls : List Label) :
    scanPair ts ls =
      ((labeledOf ts ls).head?.map Prod.fst,
       ((labeledOf ts ls).tail.getLast?).map Prod.fst) :=
  foldl_scan_none _

/-! ### Branch lemmas for `get_bounds` -/

lemma getSpine_bottom (ax : Axis) : getSpine ax "bottom" = ax.spineBottom := rfl

lemma getSpine_left (ax : Axis) : getSpine ax "left" = ax.spineLeft := rfl

lemma get_boundsE_x (ax : Axis) : get_boundsE "x" ax = Except.ok (getBoundsX ax) := rfl

lemma get_boundsE_y (ax : Axis) : get_boundsE "y" ax = Except.ok (getBoundsY ax) := rfl

lemma get_bounds1_of_some (fns : AxisFns) (ax : Axis) (b : ℚ × ℚ)
    (h : (getSpine ax fns.spineKey).bounds = some b) : get_bounds1 fns ax = b := by
  unfold get_bounds1
  rw [h]

lemma get_bounds1_of_none (fns : AxisFns) (ax : Axis)
    (h : (getSpine ax fns.spineKey).bounds = none) :
    get_bounds1 fns ax =
      finishBounds (fns.limits ax) (scanPair (fns.ticks ax) (fns.ticklabels ax)) := by
  unfold get_bounds1
  rw [h]

lemma finishBounds_some_some (L : ℚ × ℚ) (lo hi : ℚ) :
    finishBounds L (some lo, some hi) = (lo, hi) := rfl

lemma finishBounds_fst_none (L : ℚ × ℚ) (u : Option ℚ) :
    finishBounds L (none, u) = L := by
  cases u <;> rfl

lemma finishBounds_snd_none (L : ℚ × ℚ) (lo : ℚ) :
    finishBounds L (some lo, none) = L := rfl

lemma getBoundsX_of_none (ax : Axis) (hb : ax.spineBottom.bounds = none) :
    getBoundsX ax = finishBounds ax.xlim (scanPair ax.xticks ax.xtickLabels) :=
  get_bounds1_of_none xFns ax hb

lemma getBoundsY_of_none (ax : Axis) (hb : ax.spineLeft.bounds = none) :
    getBoundsY ax = finishBounds ax.ylim (scanPair ax.yticks ax.ytickLabels) :=
  get_bounds1_of_none yFns ax hb

lemma scanPairX (ax : Axis) :
    scanPair ax.xticks ax.xtickLabels =
      ((labeledX ax).head?.map Prod.fst, ((labeledX ax).tail.getLast?).map Prod.fst) :=
  scanPair_eq _ _

lemma scanPairY (ax : Axis) :
    scanPair ax.yticks ax.ytickLabels =
      ((labeledY ax).head?.map Prod.fst, ((labeledY ax).tail.getLast?).map Prod.fst) :=
  scanPair_eq _ _

/-! ### Claims -/

/-- Claim C1: for an axis whose selected spine (bottom for "x", left for
"y") carries no explicit bound range, `get_bounds` scans ticks and
labels in parallel and, among ticks with non-empty label text, returns
the position of the first such tick as the lower bound and the position
of the last such tick as the upper bound. -/
theorem claim_C1_first_last_labeled (ax : Axis) :
    (∀ hd lst : ℚ × Label,
        ax.spineBottom.bounds = none →
        2 ≤ (labeledX ax).length →
        (labeledX ax).head? = some hd →
        (labeledX ax).getLast? = some lst →
        get_boundsE "x" ax = Except.ok (hd.1, lst.1)) ∧
    (∀ hd lst : ℚ × Label,
        ax.spineLeft.bounds = none →
        2 ≤ (labeledY ax).length →
        (labeledY ax).head? = some hd →
        (labeledY ax).getLast? = some lst →
        get_boundsE "y" ax = Except.ok (hd.1, lst.1)) := by
  constructor
  · intro hd lst hb h2 hh hl
    rw [get_boundsE_x, getBoundsX_of_none ax hb, scanPairX]
    cases hL : labeledX ax with
    | nil => rw [hL] at h2; exact absurd h2 (by simp)
    | cons a s =>
      cases s with
      | nil => rw [hL] at h2; exact absurd h2 (by simp)
      | cons b t =>
        rw [hL] at hh hl
        have ha : hd = a := by
          rw [List.head?_cons] at hh
          exact (Option.some.inj hh).symm
        rw [List.getLast?_cons_cons] at hl
        simp only [List.head?_cons, List.tail_cons, hl, Option.map_some']
        rw [finishBounds_some_some, ha]
  · intro hd lst hb h2 hh hl
    rw [get_boundsE_y, getBoundsY_of_none ax hb, scanPairY]
    cases hL : labeledY ax with
    | nil => rw [hL] at h2; exact absurd h2 (by simp)
    | cons a s =>
      cases s with
      | nil => rw [hL] at h2; exact absurd h2 (by simp)
      | cons b t =>
        rw [hL] at hh hl
        have ha : hd = a := by
          rw [List.head?_cons] at hh
          exact (Option.some.inj hh).symm
        rw [List.getLast?_cons_cons] at hl
        simp only [List.head?_cons, List.tail_cons, hl, Option.map_some']
        rw [finishBounds_some_some, ha]

/-- Claim C1 witness: on `axW`, with ticks labeled only at positions 2
and 8 and no explicit spine bounds, `get_bounds` returns (2, 8) for both
selectors. -/
theorem claim_C1_witness :
    get_boundsE "x" axW = Except.ok (2, 8) ∧
    get_boundsE "y" axW = Except.ok (2, 8) := by
  constructor
  · exact (claim_C1_first_last_labeled axW).1 (2, labelOf "2") (8, labelOf "8")
      rfl (by decide) (by decide) (by decide)
  · exact (claim_C1_first_last_labeled axW).2 (2, labelOf "2") (8, labelOf "8")
      rfl (by decide) (by decide) (by decide)

/-- Claim C2: with no explicit spine bound range and fewer than two
labeled ticks (one labeled tick or none), `get_bounds` returns the
axis's full display limits. -/
theorem claim_C2_limits_fallback (ax : Axis) :
    (ax.spineBottom.bounds = none → (labeledX ax).length < 2 →
        get_boundsE "x" ax = Except.ok ax.xlim) ∧
    (ax.spineLeft.bounds = none → (labeledY ax).length < 2 →
        get_boundsE "y" ax = Except.ok ax.ylim) := by
  constructor
  · intro hb hlen
    rw [get_boundsE_x, getBoundsX_of_none ax hb, scanPairX]
    cases hL : labeledX ax with
    | nil => rfl
    | cons a s =>
      cases s with
      | nil => rfl
      | cons b t =>
        rw [hL] at hlen
        simp only [List.length_cons] at hlen
        omega
  · intro hb hlen
    rw [get_boundsE_y, getBoundsY_of_none ax hb, scanPairY]
    cases hL : labeledY ax with
    | nil => rfl
    | cons a s =>
      cases s with
      | nil => rfl
      | cons b t =>
        rw [hL] at hlen
        simp only [List.length_cons] at hlen
        omega

/-- Claim C2 witness: a default axis with no labeled ticks falls back to
its display limits (0, 1); an axis with exactly one labeled tick falls
back to its display limits (0, 10), not a degenerate range. -/
theorem claim_C2_witness :
    get_boundsE "x" (freshAxis 0) = Except.ok (0, 1) ∧
    get_boundsE "x" axOne = Except.ok (0, 10) := by
  constructor
  · exact (claim_C2_limits_fallback (freshAxis 0)).1 rfl (by decide)
  · exact (claim_C2_limits_fallback axOne).1 rfl (by decide)

/-- Claim C3: `breathe(factor)` computes per-axis bounds via
`get_bounds`, sets the display limits to the bounds padded by
`factor * range` on each side, and pins the spine's drawn bound to the
original unpadded bounds; concretely, with factor 1/10 and original
bounds (0, 10) the display limits become (-1, 11) while the spine bound
remains (0, 10). -/
theorem claim_C3_breathe_pads_limits (factor : ℚ) (direction : String) (ax : Axis) :
    (breathe_core factor direction ax).xlim =
      ((getBoundsX ax).1 - factor * ((getBoundsX ax).2 - (getBoundsX ax).1),
       (getBoundsX ax).2 + factor * ((getBoundsX ax).2 - (getBoundsX ax).1)) ∧
    (breathe_core factor direction ax).spineBottom.bounds = some (getBoundsX ax) ∧
    (breathe_core factor direction ax).ylim =
      ((getBoundsY ax).1 - factor * ((getBoundsY ax).2 - (getBoundsY ax).1),
       (getBoundsY ax).2 + factor * ((getBoundsY ax).2 - (getBoundsY ax).1)) ∧
    (breathe_core factor direction ax).spineLeft.bounds = some (getBoundsY ax) ∧
    (breathe_core (1 / 10) "out" axB).xlim = (-1, 11) ∧
    (breathe_core (1 / 10) "out" axB).spineBottom.bounds = some (0, 10) ∧
    (breathe_core (1 / 10) "out" axB).ylim = (-1, 11) ∧
    (breathe_core (1 / 10) "out" axB).spineLeft.bounds = some (0, 10) := by
  refine ⟨rfl, rfl, rfl, rfl, ?_, rfl, ?_, rfl⟩
  · have h : (breathe_core (1 / 10) "out" axB).xlim
        = ((0 : ℚ) - 1 / 10 * ((10 : ℚ) - 0), (10 : ℚ) + 1 / 10 * ((10 : ℚ) - 0)) := rfl
    rw [h]
    norm_num
  · have h : (breathe_core (1 / 10) "out" axB).ylim
        = ((0 : ℚ) - 1 / 10 * ((10 : ℚ) - 0), (10 : ℚ) + 1 / 10 * ((10 : ℚ) - 0)) := rfl
    rw [h]
    norm_num

lemma getBoundsX_of_some (ax : Axis) (b : ℚ × ℚ) (h : ax.spineBottom.bounds = some b) :
    getBoundsX ax = b :=
  get_bounds1_of_some xFns ax b h

lemma getBoundsY_of_some (ax : Axis) (b : ℚ × ℚ) (h : ax.spineLeft.bounds = some b) :
    getBoundsY ax = b :=
  get_bounds1_of_some yFns ax b h

lemma breathe_spineBottom (factor : ℚ) (direction : String) (ax : Axis) :
    (breathe_core factor direction ax).spineBottom.bounds = some (getBoundsX ax) := rfl

lemma breathe_spineLeft (factor : ℚ) (direction : String) (ax : Axis) :
    (breathe_core factor direction ax).spineLeft.bounds = some (getBoundsY ax) := rfl

/-- Claim C10: after `breathe`, `get_bounds` returns the very bounds the
`breathe` call computed — the unpadded ones, not the padded display
limits — because they were stored on the bottom/left spines, which
`get_bounds` consults with priority over the tick scan. -/
theorem claim_C10_breathe_get_bounds_roundtrip (factor : ℚ) (direction : String) (ax : Axis) :
    get_boundsE "x" (breathe_core factor direction ax) = Except.ok (getBoundsX ax) ∧
    get_boundsE "y" (breathe_core factor direction ax) = Except.ok (getBoundsY ax) := by
  constructor
  · rw [get_boundsE_x, getBoundsX_of_some _ _ (breathe_spineBottom factor direction ax)]
  · rw [get_boundsE_y, getBoundsY_of_some _ _ (breathe_spineLeft factor direction ax)]

/-- Claim C4: `nospines` clears the color of exactly the flagged-true
spines (the others keep their color), and places ticks by the tie-break
rule: both top and bottom hidden removes all x-ticks, only top hidden
puts x-ticks at the bottom, only bottom hidden puts them at the top, and
symmetrically for y with left/right; with the default flags the left and
bottom spine colors are untouched, x-ticks go to the bottom and y-ticks
to the left. -/
theorem claim_C4_nospines_flags (left bottom top right : Bool) (ax : Axis) :
    (nospines_core left bottom top right ax).spineLeft.color =
      (if left then "none" else ax.spineLeft.color) ∧
    (nospines_core left bottom top right ax).spineRight.color =
      (if right then "none" else ax.spineRight.color) ∧
    (nospines_core left bottom top right ax).spineTop.color =
      (if top then "none" else ax.spineTop.color) ∧
    (nospines_core left bottom top right ax).spineBottom.color =
      (if bottom then "none" else ax.spineBottom.color) ∧
    (nospines_core left bottom top right ax).xticks =
      (if top && bottom then ([] : List ℚ) else ax.xticks) ∧
    (nospines_core left bottom top right ax).xTickPos =
      (if top && bottom then ax.xTickPos
       else if top then "bottom" else if bottom then "top" else ax.xTickPos) ∧
    (nospines_core left bottom top right ax).yticks =
      (if left && right then ([] : List ℚ) else ax.yticks) ∧
    (nospines_core left bottom top right ax).yTickPos =
      (if left && right then ax.yTickPos
       else if left then "right" else if right then "left" else ax.yTickPos) ∧
    (nospines_core false false true true ax).spineLeft.color = ax.spineLeft.color ∧
    (nospines_core false false true true ax).spineBottom.color = ax.spineBottom.color ∧
    (nospines_core false false true true ax).spineTop.color = "none" ∧
    (nospines_core false false true true ax).spineRight.color = "none" ∧
    (nospines_core false false true true ax).xTickPos = "bottom" ∧
    (nospines_core false false true true ax).yTickPos = "left" := by
  cases left <;> cases bottom <;> cases top <;> cases right <;>
    exact ⟨rfl, rfl, rfl, rfl, rfl, rfl, rfl, rfl, rfl, rfl, rfl, rfl, rfl, rfl⟩

lemma nsp_fig (l b t r : Bool) (ax : Axis) :
    (nospines_core l b t r ax).fig = ax.fig := by
  cases l <;> cases b <;> cases t <;> cases r <;> rfl

lemma nsp_xticks (l b t r : Bool) (ax : Axis) :
    (nospines_core l b t r ax).xticks = if t && b then [] else ax.xticks := by
  cases l <;> cases b <;> cases t <;> cases r <;> rfl

lemma nsp_yticks (l b t r : Bool) (ax : Axis) :
    (nospines_core l b t r ax).yticks = if l && r then [] else ax.yticks := by
  cases l <;> cases b <;> cases t <;> cases r <;> rfl

lemma nsp_xtickLabels (l b t r : Bool) (ax : Axis) :
    (nospines_core l b t r ax).xtickLabels = if t && b then [] else ax.xtickLabels := by
  cases l <;> cases b <;> cases t <;> cases r <;> rfl

lemma nsp_ytickLabels (l b t r : Bool) (ax : Axis) :
    (nospines_core l b t r ax).ytickLabels = if l && r then [] else ax.ytickLabels := by
  cases l <;> cases b <;> cases t <;> cases r <;> rfl

lemma nsp_xlim (l b t r : Bool) (ax : Axis) :
    (nospines_core l b t r ax).xlim = ax.xlim := by
  cases l <;> cases b <;> cases t <;> cases r <;> rfl

lemma nsp_ylim (l b t r : Bool) (ax : Axis) :
    (nospines_core l b t r ax).ylim = ax.ylim := by
  cases l <;> cases b <;> cases t <;> cases r <;> rfl

lemma nsp_spineLeft (l b t r : Bool) (ax : Axis) :
    (nospines_core l b t r ax).spineLeft =
      if l then { ax.spineLeft with color := "none" } else ax.spineLeft := by
  cases l <;> cases b <;> cases t <;> cases r <;> rfl

lemma nsp_spineRight (l b t r : Bool) (ax : Axis) :
    (nospines_core l b t r ax).spineRight =
      if r then { ax.spineRight with color := "none" } else ax.spineRight := by
  cases l <;> cases b <;> cases t <;> cases r <;> rfl

lemma nsp_spineTop (l b t r : Bool) (ax : Axis) :
    (nospines_core l b t r ax).spineTop =
      if t then { ax.spineTop with color := "none" } else ax.spineTop := by
  cases l <;> cases b <;> cases t <;> cases r <;> rfl

lemma nsp_spineBottom (l b t r : Bool) (ax : Axis) :
    (nospines_core l b t r ax).spineBottom =
      if b then { ax.spineBottom with color := "none" } else ax.spineBottom := by
  cases l <;> cases b <;> cases t <;> cases r <;> rfl

lemma nsp_xTickPos (l b t r : Bool) (ax : Axis) :
    (nospines_core l b t r ax).xTickPos =
      if t && b then ax.xTickPos
      else if t then "bottom" else if b then "top" else ax.xTickPos := by
  cases l <;> cases b <;> cases t <;> cases r <;> rfl

lemma nsp_yTickPos (l b t r : Bool) (ax : Axis) :
    (nospines_core l b t r ax).yTickPos =
      if l && r then ax.yTickPos
      else if l then "right" else if r then "left" else ax.yTickPos := by
  cases l <;> cases b <;> cases t <;> cases r <;> rfl

lemma nsp_xTickDir (l b t r : Bool) (ax : Axis) :
    (nospines_core l b t r ax).xTickDir = ax.xTickDir := by
  cases l <;> cases b <;> cases t <;> cases r <;> rfl

lemma nsp_yTickDir (l b t r : Bool) (ax : Axis) :
    (nospines_core l b t r ax).yTickDir = ax.yTickDir := by
  cases l <;> cases b <;> cases t <;> cases r <;> rfl

lemma nsp_xTickColor (l b t r : Bool) (ax : Axis) :
    (nospines_core l b t r ax).xTickColor = ax.xTickColor := by
  cases l <;> cases b <;> cases t <;> cases r <;> rfl

lemma nsp_yTickColor (l b t r : Bool) (ax : Axis) :
    (nospines_core l b t r ax).yTickColor = ax.yTickColor := by
  cases l <;> cases b <;> cases t <;> cases r <;> rfl

lemma nsp_xlabel (l b t r : Bool) (ax : Axis) :
    (nospines_core l b t r ax).xlabel = ax.xlabel := by
  cases l <;> cases b <;> cases t <;> cases r <;> rfl

lemma nsp_ylabel (l b t r : Bool) (ax : Axis) :
    (nospines_core l b t r ax).ylabel = ax.ylabel := by
  cases l <;> cases b <;> cases t <;> cases r <;> rfl

lemma nsp_xlabelColor (l b t r : Bool) (ax : Axis) :
    (nospines_core l b t r ax).xlabelColor = ax.xlabelColor := by
  cases l <;> cases b <;> cases t <;> cases r <;> rfl

lemma nsp_ylabelColor (l b t r : Bool) (ax : Axis) :
    (nospines_core l b t r ax).ylabelColor = ax.ylabelColor := by
  cases l <;> cases b <;> cases t <;> cases r <;> rfl

/-- Claim C7: `nospines` is idempotent — applying it twice with the same
flags to any axis state yields the same axis state (hence the same spine
colors and tick positions) as applying it once. -/
theorem claim_C7_nospines_idempotent (left bottom top right : Bool) (ax : Axis) :
    nospines_core left bottom top right (nospines_core left bottom top right ax) =
      nospines_core left bottom top right ax := by
  apply Axis.ext <;>
    simp only [nsp_fig, nsp_xticks, nsp_yticks, nsp_xtickLabels, nsp_ytickLabels,
      nsp_xlim, nsp_ylim, nsp_spineLeft, nsp_spineRight, nsp_spineTop, nsp_spineBottom,
      nsp_xTickPos, nsp_yTickPos, nsp_xTickDir, nsp_yTickDir, nsp_xTickColor,
      nsp_yTickColor, nsp_xlabel, nsp_ylabel, nsp_xlabelColor, nsp_ylabelColor] <;>
    cases left <;> cases bottom <;> cases top <;> cases right <;> simp

/-- Claim C8: on a selector other than "x" or "y", the `axis_map` lookup
inside `get_bounds` fails, and the resulting `KeyError` propagates out
of `get_bounds` unmodified — the module has no validation branch and
constructs no error of its own. -/
theorem claim_C8_keyerror_propagates (s : String) (ax : Axis)
    (hx : s ≠ "x") (hy : s ≠ "y") :
    axis_map s = none ∧
    get_boundsE s ax = Except.error (PyError.keyError s) := by
  have hm : axis_map s = none := by simp [axis_map, hx, hy]
  refine ⟨hm, ?_⟩
  unfold get_boundsE
  rw [hm]

/-- Claim C8 witness: selector "z" surfaces `KeyError "z"`. -/
theorem claim_C8_witness :
    axis_map "z" = none ∧
    get_boundsE "z" (freshAxis 0) = Except.error (PyError.keyError "z") :=
  claim_C8_keyerror_propagates "z" (freshAxis 0) (by decide) (by decide)

/-- Claim C9: for any font size s > 0, `setfontsize(size=s)` rewrites
the tick labels of both axes from the current tick positions, each
rendered at size s (and leaves the tick positions themselves alone). -/
theorem claim_C9_setfontsize (s : ℚ) (ax : Axis) (hs : 0 < s) :
    (setfontsize_core s ax).xtickLabels = ax.xticks.map (fun v => ⟨numToStr v, s⟩) ∧
    (setfontsize_core s ax).ytickLabels = ax.yticks.map (fun v => ⟨numToStr v, s⟩) ∧
    (setfontsize_core s ax).xticks = ax.xticks ∧
    (setfontsize_core s ax).yticks = ax.yticks ∧
    (∀ lab ∈ (setfontsize_core s ax).xtickLabels, lab.size = s) ∧
    (∀ lab ∈ (setfontsize_core s ax).ytickLabels, lab.size = s) := by
  have hxl : (setfontsize_core s ax).xtickLabels =
      ax.xticks.map (fun v => ⟨numToStr v, s⟩) := by
    simp [setfontsize_core, set_xticklabels, set_yticklabels, List.map_map,
      Function.comp]
  have hyl : (setfontsize_core s ax).ytickLabels =
      ax.yticks.map (fun v => ⟨numToStr v, s⟩) := by
    simp [setfontsize_core, set_xticklabels, set_yticklabels, List.map_map,
      Function.comp]
  refine ⟨hxl, hyl, rfl, rfl, ?_, ?_⟩
  · intro lab hmem
    rw [hxl] at hmem
    obtain ⟨v, _, hlab⟩ := List.mem_map.mp hmem
    rw [← hlab]
  · intro lab hmem
    rw [hyl] at hmem
    obtain ⟨v, _, hlab⟩ := List.mem_map.mp hmem
    rw [← hlab]

/-- Claim C9 witness: instantiation at size 18 on `axW`. -/
theorem claim_C9_witness :
    (0 : ℚ) < 18 ∧
    ((setfontsize_core 18 axW).xtickLabels =
        axW.xticks.map (fun v => ⟨numToStr v, 18⟩) ∧
      (setfontsize_core 18 axW).ytickLabels =
        axW.yticks.map (fun v => ⟨numToStr v, 18⟩) ∧
      (setfontsize_core 18 axW).xticks = axW.xticks ∧
      (setfontsize_core 18 axW).yticks = axW.yticks ∧
      (∀ lab ∈ (setfontsize_core 18 axW).xtickLabels, lab.size = 18) ∧
      (∀ lab ∈ (setfontsize_core 18 axW).ytickLabels, lab.size = 18)) :=
  ⟨by norm_num, claim_C9_setfontsize 18 axW (by norm_num)⟩

/-- Claim C6: the create-or-reuse wrapper (`plotwrapper`) creates a new
figure and single subplot only when the axis is absent — creating a
figure only when one was not supplied — and derives the figure from the
axis when the axis is supplied without a figure; the current-axis-only
wrapper (`axwrapper`) binds to the library's currently-active
figure/axis when the axis is absent and never creates a new figure or
axis (its state is returned untouched). -/
theorem claim_C6_wrapper_resolution (env : Env) (a : Axis) (f : Nat) :
    plotResolve env (some a) none = (env, a.fig, a) ∧
    plotResolve env (some a) (some f) = (env, f, a) ∧
    plotResolve env none (some f) = ({ env with gca := freshAxis f }, f, freshAxis f) ∧
    (plotResolve env none (some f)).1.nextFig = env.nextFig ∧
    plotResolve env none none =
      ({ env with nextFig := env.nextFig + 1, gcf := env.nextFig,
                  gca := freshAxis env.nextFig },
       env.nextFig, freshAxis env.nextFig) ∧
    (∀ axOpt figOpt, (axResolve env axOpt figOpt).1 = env) ∧
    axResolve env none none = (env, env.gcf, env.gca) ∧
    axResolve env none (some f) = (env, f, env.gca) ∧
    axResolve env (some a) none = (env, a.fig, a) ∧
    axResolve env (some a) (some f) = (env, f, a) := by
  refine ⟨rfl, rfl, rfl, rfl, rfl, ?_, rfl, rfl, rfl, rfl⟩
  intro axOpt figOpt
  cases axOpt <;> cases figOpt <;> rfl

/-- Claim C5 counterexample: `get_bounds` does not return the axis
handle — on a concrete fresh axis it returns the numeric pair (0, 1),
and a pair value is never an axis value; so "every public operation
returns the resulting axis handle" fails at `get_bounds`. -/
theorem claim_C5_counterexample :
    get_bounds envW "x" (some (freshAxis 0)) = Except.ok (PyVal.pairv (0, 1)) ∧
    ∀ a : Axis, PyVal.pairv (0, 1) ≠ PyVal.axisv a := by
  refine ⟨rfl, ?_⟩
  intro a h
  cases h

/-- Claim C5 (amended): the six decorated operations (`setfontsize`,
`noticks`, `nospines`, `breathe`, `tickdir`, `setcolor`) accept an
optional axis and/or figure and return the axis handle they acted on
(the resolved axis after the body ran); `get_bounds` instead accepts
only an optional axis and returns the numeric `(lower, upper)` pair. -/
theorem claim_C5_amended_returns (env : Env) (axOpt : Option Axis) (figOpt : Option Nat)
    (s factor : ℚ) (left bottom top right : Bool) (direction color : String) (a : Axis) :
    setfontsize s env axOpt figOpt =
      ((plotResolve env axOpt figOpt).1,
       PyVal.axisv (setfontsize_core s (plotResolve env axOpt figOpt).2.2)) ∧
    noticks env axOpt figOpt =
      ((axResolve env axOpt figOpt).1,
       PyVal.axisv (noticks_core (axResolve env axOpt figOpt).2.2)) ∧
    nospines left bottom top right env axOpt figOpt =
      ((axResolve env axOpt figOpt).1,
       PyVal.axisv (nospines_core left bottom top right (axResolve env axOpt figOpt).2.2)) ∧
    breathe factor direction env axOpt figOpt =
      ((axResolve env axOpt figOpt).1,
       PyVal.axisv (breathe_core factor direction (axResolve env axOpt figOpt).2.2)) ∧
    tickdir direction env axOpt figOpt =
      ((axResolve env axOpt figOpt).1,
       PyVal.axisv (tickdir_core direction (axResolve env axOpt figOpt).2.2)) ∧
    setcolor color env axOpt figOpt =
      ((axResolve env axOpt figOpt).1,
       PyVal.axisv (setcolor_core color (axResolve env axOpt figOpt).2.2)) ∧
    get_bounds env "x" (some a) = Except.ok (PyVal.pairv (getBoundsX a)) ∧
    get_bounds env "y" (some a) = Except.ok (PyVal.pairv (getBoundsY a)) ∧
    get_bounds env "x" none = Except.ok (PyVal.pairv (getBoundsX env.gca)) := by
  exact ⟨rfl, rfl, rfl, rfl, rfl, rfl, rfl, rfl, rfl⟩

end Jetpack
